import Mathlib

/- Verification of the argocd-operator convergence core: a shallow embedding of
the resource builders (pkg/networking/service.go, pkg/workloads/statefulset.go),
the field comparator, the role-binding reconciler
(controllers/argocd/applicationset/rolebinding.go), the redis config-map
reconciler helpers, and the cluster-config namespace check, together with
theorems settling the specification claims. -/

set_option maxHeartbeats 1000000

/- Errors returned by the external store. `isNotFound` models the
k8s.io apierrors.IsNotFound distinguished error kind. -/
structure StoreErr where
  isNotFound : Bool
  msg : String
deriving DecidableEq

def notFoundErr : StoreErr := { isNotFound := true, msg := "not found" }

/- errors.Wrapf from github.com/pkg/errors: prepends a message. -/
def wrapErr (tag : String) (e : StoreErr) : StoreErr :=
  { e with msg := tag ++ ": " ++ e.msg }

/- Substring occurrence on the underlying character lists, used to state that
an error message mentions a given hook failure. -/
def listIsPrefixB : List Char → List Char → Bool
  | [], _ => true
  | _ :: _, [] => false
  | a :: as, b :: bs => a = b && listIsPrefixB as bs

def occursIn (needle : List Char) : List Char → Bool
  | [] => listIsPrefixB needle []
  | b :: bs => listIsPrefixB needle (b :: bs) || occursIn needle bs

def mentions (needle hay : String) : Bool :=
  occursIn needle.data hay.data

/- Modelled from the spec: argoutil.GenerateResourceName is not under src/.
The spec requires a deterministic generated name computed from the parent
(instance) name and the component tag. -/
def GenerateResourceName (instanceName component : String) : String :=
  instanceName ++ "-" ++ component

/- Modelled from the spec: argoutil.MergeMaps is not under src/. Request-supplied
keys override system defaults on collision; neither input is mutated. Maps are
embedded as association lists. -/
def MergeMaps (base over : List (String × String)) : List (String × String) :=
  base.filter (fun kv => (over.lookup kv.1).isNone) ++ over

/- Modelled from the spec: argoutil.LabelsForCluster is not under src/. The spec
describes system-derived defaults: parent identity labels plus a component label. -/
def LabelsForCluster (instanceName component : String) : List (String × String) :=
  [("app.kubernetes.io/name", instanceName), ("app.kubernetes.io/component", component)]

/- Modelled from the spec (and the DefaultAnnotations test under
src/pkg/controller/argoutil/resource_test.go): parent name and namespace
annotations. argoutil.AnnotationsForCluster is not under src/. -/
def AnnotationsForCluster (instanceName instanceNamespace : String) : List (String × String) :=
  [("argocds.argoproj.io/name", instanceName),
   ("argocds.argoproj.io/namespace", instanceNamespace)]

/- corev1.Service, restricted to the fields the embedded code touches. -/
structure Service where
  name : String
  ns : String
  labels : List (String × String)
  annotations : List (String × String)
deriving DecidableEq

/- appsv1.StatefulSet, restricted to the fields the embedded code touches.
Note the source builder sets no annotations on stateful sets. -/
structure StatefulSet where
  name : String
  ns : String
  labels : List (String × String)
deriving DecidableEq

/- mutation.MutateFunc specialised to a resource type: the cr and client
arguments passed by the builders are fixed (nil / request.Client), so a hook is
a function of the object, returning the mutated object and an optional error. -/
def MutateFuncOn (σ : Type) : Type := σ → σ × Option String

/- ServiceRequest from pkg/networking/service.go. -/
structure ServiceRequest where
  name : String
  instanceName : String
  instanceNamespace : String
  component : String
  labels : List (String × String)
  annotations : List (String × String)
  mutations : List (MutateFuncOn Service)

/- StatefulSetRequest from pkg/workloads/statefulset.go. -/
structure StatefulSetRequest where
  name : String
  instanceName : String
  ns : String
  component : String
  labels : List (String × String)
  mutations : List (MutateFuncOn StatefulSet)

/- newService from pkg/networking/service.go lines 31-47. -/
def newService (name instanceName instanceNamespace component : String)
    (labels annotations : List (String × String)) : Service :=
  { name := if name ≠ "" then name else GenerateResourceName instanceName component,
    ns := instanceNamespace,
    labels := MergeMaps (LabelsForCluster instanceName component) labels,
    annotations := MergeMaps (AnnotationsForCluster instanceName instanceNamespace) annotations }

/- newStatefulSet from pkg/workloads/statefulset.go lines 30-45. -/
def newStatefulSet (name instanceName ns component : String)
    (labels : List (String × String)) : StatefulSet :=
  { name := if name ≠ "" then name else GenerateResourceName instanceName component,
    ns := ns,
    labels := MergeMaps (LabelsForCluster instanceName component) labels }

/- One iteration of the mutation loop shared by RequestService and
RequestStatefulSet: run the hook on the current object; a non-nil hook error
overwrites the accumulated mutationErr. -/
def mutStep {σ : Type} (acc : σ × Option String) (m : MutateFuncOn σ) : σ × Option String :=
  ((m acc.1).1,
   match (m acc.1).2 with
   | some e => some e
   | none => acc.2)

def svcMutationErrMsg : String :=
  "RequestService: one or more mutation functions could not be applied: "

def stsMutationErrMsg : String :=
  "RequestStatefulSet: one or more mutation functions could not be applied: "

/- RequestService from pkg/networking/service.go lines 99-118. -/
def RequestService (request : ServiceRequest) : Service × Option String :=
  let service := newService request.name request.instanceName request.instanceNamespace
      request.component request.labels request.annotations
  if request.mutations.isEmpty then
    (service, none)
  else
    let res := request.mutations.foldl mutStep (service, none)
    match res.2 with
    | some e => (res.1, some (svcMutationErrMsg ++ e))
    | none => (res.1, none)

/- RequestStatefulSet from pkg/workloads/statefulset.go lines 97-116. -/
def RequestStatefulSet (request : StatefulSetRequest) : StatefulSet × Option String :=
  let sts := newStatefulSet request.name request.instanceName request.ns
      request.component request.labels
  if request.mutations.isEmpty then
    (sts, none)
  else
    let res := request.mutations.foldl mutStep (sts, none)
    match res.2 with
    | some e => (res.1, some (stsMutationErrMsg ++ e))
    | none => (res.1, none)

/- Reference semantics for the mutation pipeline: the object that results from
running every hook in order. -/
def applyAll {σ : Type} (ms : List (MutateFuncOn σ)) (s : σ) : σ :=
  ms.foldl (fun t m => (m t).1) s

/- Reference semantics for the accumulated error: the error of the last failing
hook along the actual run, if any. -/
def lastHookErr {σ : Type} : List (MutateFuncOn σ) → σ → Option String
  | [], _ => none
  | m :: ms, s =>
    match lastHookErr ms (m s).1 with
    | some e => some e
    | none => (m s).2

theorem foldl_mutStep {σ : Type} (ms : List (MutateFuncOn σ)) (s : σ) (e0 : Option String) :
    ms.foldl mutStep (s, e0) =
      (applyAll ms s,
       match lastHookErr ms s with
       | some e => some e
       | none => e0) := by
  induction ms generalizing s e0 with
  | nil => rfl
  | cons m ms ih =>
    show List.foldl mutStep (mutStep (s, e0) m) ms = _
    rw [show mutStep (s, e0) m =
        ((m s).1, match (m s).2 with | some e => some e | none => e0) from rfl]
    rw [ih]
    show (applyAll ms (m s).1, _) = (applyAll (m :: ms) s, _)
    rw [show applyAll (m :: ms) s = applyAll ms (m s).1 from rfl]
    rw [show lastHookErr (m :: ms) s =
        (match lastHookErr ms (m s).1 with
         | some e => some e
         | none => (m s).2) from rfl]
    cases lastHookErr ms (m s).1 <;> cases (m s).2 <;> rfl

/- Concrete request exercising the mutation pipeline with two failing hooks:
hook 1 fails with "alpha", hook 2 fails with "beta". -/
def twoFailReq : ServiceRequest :=
  { name := "my-svc", instanceName := "argocd", instanceNamespace := "ns1",
    component := "redis", labels := [], annotations := [],
    mutations := [fun s => (s, some "alpha"), fun s => (s, some "beta")] }

/-- C1 counterexample: with two failing hooks ("alpha" then "beta"),
RequestService returns an error that wraps only the last failure "beta"; the
first failing hook's error "alpha" is not mentioned anywhere in the returned
error, so the returned error does not describe every failing hook. -/
theorem requestService_error_omits_first_failure :
    (RequestService twoFailReq).2 =
      some "RequestService: one or more mutation functions could not be applied: beta" ∧
    mentions "alpha"
      "RequestService: one or more mutation functions could not be applied: beta" = false := by
  constructor
  · rfl
  · decide

/-- C1 amended: every hook still runs in order even when an earlier hook fails
(the returned object is the fold of all hooks over the freshly built object, so
the partially-mutated object is returned), but the returned error wraps only
the error of the LAST failing hook — earlier hook errors are overwritten, not
aggregated. Stated for both RequestService and RequestStatefulSet. -/
theorem requestService_runs_all_hooks_reports_last_error
    (req : ServiceRequest) (reqS : StatefulSetRequest) :
    (RequestService req).1 = applyAll req.mutations
      (newService req.name req.instanceName req.instanceNamespace
        req.component req.labels req.annotations) ∧
    (RequestService req).2 = (lastHookErr req.mutations
      (newService req.name req.instanceName req.instanceNamespace
        req.component req.labels req.annotations)).map (fun e => svcMutationErrMsg ++ e) ∧
    (RequestStatefulSet reqS).1 = applyAll reqS.mutations
      (newStatefulSet reqS.name reqS.instanceName reqS.ns reqS.component reqS.labels) ∧
    (RequestStatefulSet reqS).2 = (lastHookErr reqS.mutations
      (newStatefulSet reqS.name reqS.instanceName reqS.ns
        reqS.component reqS.labels)).map (fun e => stsMutationErrMsg ++ e) := by
  refine ⟨?_, ?_, ?_, ?_⟩
  · show (RequestService req).1 = _
    unfold RequestService
    cases h : req.mutations with
    | nil => simp [h, applyAll]
    | cons m ms =>
      simp only [h, List.isEmpty_cons, Bool.false_eq_true, if_false, foldl_mutStep]
      cases lastHookErr (m :: ms) (newService req.name req.instanceName req.instanceNamespace
        req.component req.labels req.annotations) <;> rfl
  · unfold RequestService
    cases h : req.mutations with
    | nil => simp [h, lastHookErr]
    | cons m ms =>
      simp only [h, List.isEmpty_cons, Bool.false_eq_true, if_false, foldl_mutStep]
      cases lastHookErr (m :: ms) (newService req.name req.instanceName req.instanceNamespace
        req.component req.labels req.annotations) <;> rfl
  · unfold RequestStatefulSet
    cases h : reqS.mutations with
    | nil => simp [h, applyAll]
    | cons m ms =>
      simp only [h, List.isEmpty_cons, Bool.false_eq_true, if_false, foldl_mutStep]
      cases lastHookErr (m :: ms) (newStatefulSet reqS.name reqS.instanceName reqS.ns
        reqS.component reqS.labels) <;> rfl
  · unfold RequestStatefulSet
    cases h : reqS.mutations with
    | nil => simp [h, lastHookErr]
    | cons m ms =>
      simp only [h, List.isEmpty_cons, Bool.false_eq_true, if_false, foldl_mutStep]
      cases lastHookErr (m :: ms) (newStatefulSet reqS.name reqS.instanceName reqS.ns
        reqS.component reqS.labels) <;> rfl

/- Concrete witness request: hook 1 succeeds and adds a label, hook 2 fails,
hook 3 succeeds and adds another label. -/
def threeHookReq : ServiceRequest :=
  { name := "my-svc", instanceName := "argocd", instanceNamespace := "ns1",
    component := "redis", labels := [], annotations := [],
    mutations :=
      [fun s => ({ s with labels := ("h1", "ran") :: s.labels }, none),
       fun s => (s, some "boom"),
       fun s => ({ s with labels := ("h3", "ran") :: s.labels }, none)] }

def emptyHookSts : StatefulSetRequest :=
  { name := "", instanceName := "cd1", ns := "ns1", component := "redis",
    labels := [], mutations := [] }

theorem requestService_hooks_witness :
    (RequestService threeHookReq).1 = applyAll threeHookReq.mutations
      (newService threeHookReq.name threeHookReq.instanceName threeHookReq.instanceNamespace
        threeHookReq.component threeHookReq.labels threeHookReq.annotations) ∧
    (RequestService threeHookReq).2 = (lastHookErr threeHookReq.mutations
      (newService threeHookReq.name threeHookReq.instanceName threeHookReq.instanceNamespace
        threeHookReq.component threeHookReq.labels threeHookReq.annotations)).map
        (fun e => svcMutationErrMsg ++ e) :=
  ⟨(requestService_runs_all_hooks_reports_last_error threeHookReq emptyHookSts).1,
   (requestService_runs_all_hooks_reports_last_error threeHookReq emptyHookSts).2.1⟩

/- argocdcommon.FieldToCompare: a pair of references to an existing field and a
desired field. The optional ExtraAction closure is a side effect outside the
pure model; every call site under src/ passes ExtraAction nil, so it is omitted. -/
structure FieldToCompare (α : Type) where
  existing : α
  desired : α
deriving DecidableEq

/- Modelled from the spec: argocdcommon.UpdateIfChanged is not under src/ (only
its callers reconcileHAConfigMap and reconcileRoleBinding are). Per the spec,
for every entry where existing differs from desired the existing field is
overwritten with the desired value (copy-forward) and the changed flag is set;
entries whose fields are equal are left unchanged. -/
def UpdateIfChanged {α : Type} [DecidableEq α] :
    List (FieldToCompare α) → Bool → List (FieldToCompare α) × Bool
  | [], changed => ([], changed)
  | f :: fs, changed =>
    if f.existing ≠ f.desired then
      let rest := UpdateIfChanged fs true
      ({ f with existing := f.desired } :: rest.1, rest.2)
    else
      let rest := UpdateIfChanged fs changed
      (f :: rest.1, rest.2)

theorem updateIfChanged_fst {α : Type} [DecidableEq α]
    (fs : List (FieldToCompare α)) (b : Bool) :
    (UpdateIfChanged fs b).1 =
      fs.map (fun f => if f.existing ≠ f.desired then { f with existing := f.desired } else f) := by
  induction fs generalizing b with
  | nil => rfl
  | cons f fs ih =>
    by_cases h : f.existing = f.desired
    · simp [UpdateIfChanged, h, ih]
    · simp [UpdateIfChanged, h, ih]

theorem updateIfChanged_snd {α : Type} [DecidableEq α]
    (fs : List (FieldToCompare α)) (b : Bool) :
    (UpdateIfChanged fs b).2 = (b || fs.any (fun f => f.existing != f.desired)) := by
  induction fs generalizing b with
  | nil => simp [UpdateIfChanged]
  | cons f fs ih =>
    by_cases h : f.existing = f.desired
    · simp [UpdateIfChanged, h, ih]
    · simp [UpdateIfChanged, h, ih]

/-- C2: for every comparator table (starting from the callers' changed=false
flag), the diff operation reports changed=true iff some entry's existing field
differs from its desired field; afterwards every differing entry's existing
field holds the desired value (copy-forward) and every equal entry is left
unchanged. -/
theorem updateIfChanged_diff_spec {α : Type} [DecidableEq α]
    (table : List (FieldToCompare α)) :
    ((UpdateIfChanged table false).2 = true ↔
      ∃ f ∈ table, f.existing ≠ f.desired) ∧
    (UpdateIfChanged table false).1 =
      table.map (fun f =>
        if f.existing ≠ f.desired then { f with existing := f.desired } else f) := by
  constructor
  · rw [updateIfChanged_snd]
    simp [List.any_eq_true, bne_iff_ne]
  · exact updateIfChanged_fst table false

theorem updateIfChanged_diff_witness :
    ((UpdateIfChanged [(⟨"x", "y"⟩ : FieldToCompare String), ⟨"z", "z"⟩] false).2 = true ↔
      ∃ f ∈ [(⟨"x", "y"⟩ : FieldToCompare String), ⟨"z", "z"⟩], f.existing ≠ f.desired) ∧
    (UpdateIfChanged [(⟨"x", "y"⟩ : FieldToCompare String), ⟨"z", "z"⟩] false).1 =
      [(⟨"x", "y"⟩ : FieldToCompare String), ⟨"z", "z"⟩].map (fun f =>
        if f.existing ≠ f.desired then { f with existing := f.desired } else f) :=
  updateIfChanged_diff_spec [⟨"x", "y"⟩, ⟨"z", "z"⟩]

/- rbacv1 / common constants used by reconcileRoleBinding. -/
def rbacGroupName : String := "rbac.authorization.k8s.io"

def roleKindConst : String := "Role"

def serviceAccountKind : String := "ServiceAccount"

/- rbacv1.RoleRef. -/
structure RoleRef where
  apiGroup : String
  kind : String
  name : String
deriving DecidableEq

/- rbacv1.Subject. -/
structure Subject where
  kind : String
  name : String
  ns : String
deriving DecidableEq

/- rbacv1.RoleBinding, restricted to the fields the embedded code touches.
ownerRefSet records whether SetControllerReference succeeded on the object. -/
structure RoleBinding where
  name : String
  ns : String
  labels : List (String × String)
  annotations : List (String × String)
  roleRef : RoleRef
  subjects : List Subject
  ownerRefSet : Bool
deriving DecidableEq

/- corev1.ServiceAccount, restricted to the fields the embedded code touches. -/
structure ServiceAccount where
  name : String
  ns : String
deriving DecidableEq

/- Store operations performed by reconcileRoleBinding, recorded as a trace. -/
inductive RBOp where
  | getServiceAccount
  | getNamespace
  | getRoleBinding
  | setOwnerRef
  | createRoleBinding (rb : RoleBinding)
  | updateRoleBinding (rb : RoleBinding)
  | deleteRoleBindingOp (name ns : String)
  | deleteRoleOp (name ns : String)
deriving DecidableEq

def RBOp.isCreate : RBOp → Bool
  | .createRoleBinding _ => true
  | _ => false

def RBOp.isUpdate : RBOp → Bool
  | .updateRoleBinding _ => true
  | _ => false

def RBOp.isDeleteRB : RBOp → Bool
  | .deleteRoleBindingOp _ _ => true
  | _ => false

/- Results of the external collaborators consumed by one reconcileRoleBinding
invocation; the store itself (the live roleBinding, if any) is passed
separately so that successive invocations can be chained. -/
structure RBEnv where
  saResult : Except StoreErr ServiceAccount
  nsTerminating : Except StoreErr Bool
  getRBErr : Option StoreErr
  setOwnerErr : Option StoreErr
  createErr : Option StoreErr
  updateErr : Option StoreErr
  deleteRBInnerErr : Option StoreErr
  deleteRoleErr : Option StoreErr

structure RBResult where
  err : Option StoreErr
  store : Option RoleBinding
  trace : List RBOp
deriving DecidableEq

/- The desired roleBinding built in reconcileRoleBinding lines 28-50:
permissions.RequestRoleBinding is not under src/; per the spec's builder
contract (and with no mutation hooks supplied here) it returns the object
described by the request verbatim. -/
def desiredRoleBinding (resourceName : String) (resourceLabels : List (String × String))
    (instNs : String) (instAnn : List (String × String)) (sa : ServiceAccount) : RoleBinding :=
  { name := resourceName,
    ns := instNs,
    labels := resourceLabels,
    annotations := instAnn,
    roleRef := { apiGroup := rbacGroupName, kind := roleKindConst, name := resourceName },
    subjects := [{ kind := serviceAccountKind, name := sa.name, ns := sa.ns }],
    ownerRefSet := false }

/- permissions.GetRoleBinding: not under src/; per the store contract it returns
a NotFound-kind error when the object is absent, the injected error when the
store fails, and the object otherwise. -/
def GetRoleBinding (store : Option RoleBinding) (injected : Option StoreErr) :
    Except StoreErr RoleBinding :=
  match injected with
  | some e => .error e
  | none =>
    match store with
    | none => .error notFoundErr
    | some rb => .ok rb

/- permissions.DeleteRoleBinding: not under src/; per the store contract Delete
returns a NotFound-kind error when the object is absent. -/
def permDeleteRoleBinding (store : Option RoleBinding) (innerErr : Option StoreErr) :
    Option StoreErr × Option RoleBinding :=
  match store with
  | none => (some notFoundErr, none)
  | some _ =>
    match innerErr with
    | some e => (some e, store)
    | none => (none, none)

/- deleteRoleBinding from rolebinding.go lines 113-123: a NotFound error from
the store is recovered as success; any other error is returned unwrapped. -/
def deleteRoleBinding (store : Option RoleBinding) (innerErr : Option StoreErr) :
    Option StoreErr × Option RoleBinding :=
  match permDeleteRoleBinding store innerErr with
  | (some e, st) => if e.isNotFound then (none, st) else (some e, st)
  | (none, st) => (none, st)

/- reconcileRoleBinding from rolebinding.go lines 18-111. resourceName and
resourceLabels are package-level constants defined outside src/ and are taken
as parameters. In the parent-terminating branch the source calls asr.deleteRole
(role.go, not under src/) on the roleBinding's name; its error is only logged
(the trailing `return err` returns the outer err, which is nil on that path),
so the model records the operation in the trace, ignores env.deleteRoleErr, and
leaves the roleBinding store untouched. -/
def reconcileRoleBinding (resourceName : String) (resourceLabels : List (String × String))
    (instNs : String) (instAnn : List (String × String))
    (env : RBEnv) (store : Option RoleBinding) : RBResult :=
  match env.saResult with
  | .error e => { err := some e, store := store, trace := [.getServiceAccount] }
  | .ok sa =>
    let desired := desiredRoleBinding resourceName resourceLabels instNs instAnn sa
    match env.nsTerminating with
    | .error e => { err := some e, store := store, trace := [.getServiceAccount, .getNamespace] }
    | .ok true =>
      { err := none, store := store,
        trace := [.getServiceAccount, .getNamespace, .deleteRoleOp desired.name desired.ns] }
    | .ok false =>
      match GetRoleBinding store env.getRBErr with
      | .error e =>
        if !e.isNotFound then
          { err := some e, store := store,
            trace := [.getServiceAccount, .getNamespace, .getRoleBinding] }
        else
          let desired2 := if env.setOwnerErr.isNone then { desired with ownerRefSet := true }
            else desired
          match env.createErr with
          | some ce =>
            { err := some ce, store := store,
              trace := [.getServiceAccount, .getNamespace, .getRoleBinding, .setOwnerRef,
                .createRoleBinding desired2] }
          | none =>
            { err := none, store := some desired2,
              trace := [.getServiceAccount, .getNamespace, .getRoleBinding, .setOwnerRef,
                .createRoleBinding desired2] }
      | .ok existing =>
        if existing.roleRef ≠ desired.roleRef then
          match deleteRoleBinding store env.deleteRBInnerErr with
          | (some e, st) =>
            { err := some (wrapErr
                "reconcileRoleBinding: unable to delete obsolete rolebinding" e),
              store := st,
              trace := [.getServiceAccount, .getNamespace, .getRoleBinding,
                .deleteRoleBindingOp resourceName instNs] }
          | (none, st) =>
            { err := none, store := st,
              trace := [.getServiceAccount, .getNamespace, .getRoleBinding,
                .deleteRoleBindingOp resourceName instNs] }
        else
          let rbChanged := (UpdateIfChanged
            [{ existing := existing.subjects, desired := desired.subjects }] false).2
          if rbChanged = false then
            { err := none, store := store,
              trace := [.getServiceAccount, .getNamespace, .getRoleBinding] }
          else
            let existing2 := { existing with subjects := desired.subjects }
            match env.updateErr with
            | some ue =>
              { err := some (wrapErr "reconcileRoleBinding: failed to update role" ue),
                store := store,
                trace := [.getServiceAccount, .getNamespace, .getRoleBinding,
                  .updateRoleBinding existing2] }
            | none =>
              { err := none, store := some existing2,
                trace := [.getServiceAccount, .getNamespace, .getRoleBinding,
                  .updateRoleBinding existing2] }

/-- C3: with no external state change between calls (same collaborator results,
no injected store errors), converging from an empty store yields Created on the
first call (a create is performed and no error is returned) and NoOp on the
second call (no create, no update, no error). -/
theorem reconcileRoleBinding_idempotent (rn : String) (rl instAnn : List (String × String))
    (instNs : String) (env : RBEnv) (sa : ServiceAccount)
    (hsa : env.saResult = .ok sa) (hns : env.nsTerminating = .ok false)
    (hget : env.getRBErr = none) (hcr : env.createErr = none) :
    (reconcileRoleBinding rn rl instNs instAnn env none).err = none ∧
    ((reconcileRoleBinding rn rl instNs instAnn env none).trace.any RBOp.isCreate) = true ∧
    (reconcileRoleBinding rn rl instNs instAnn env
      (reconcileRoleBinding rn rl instNs instAnn env none).store).err = none ∧
    ((reconcileRoleBinding rn rl instNs instAnn env
      (reconcileRoleBinding rn rl instNs instAnn env none).store).trace.any RBOp.isCreate)
      = false ∧
    ((reconcileRoleBinding rn rl instNs instAnn env
      (reconcileRoleBinding rn rl instNs instAnn env none).store).trace.any RBOp.isUpdate)
      = false := by
  cases hso : env.setOwnerErr with
  | none =>
    simp [reconcileRoleBinding, hsa, hns, hget, hcr, hso, GetRoleBinding, notFoundErr,
      desiredRoleBinding, UpdateIfChanged, RBOp.isCreate, RBOp.isUpdate]
  | some e0 =>
    simp [reconcileRoleBinding, hsa, hns, hget, hcr, hso, GetRoleBinding, notFoundErr,
      desiredRoleBinding, UpdateIfChanged, RBOp.isCreate, RBOp.isUpdate]

def happyEnv : RBEnv :=
  { saResult := .ok { name := "sa1", ns := "ns1" },
    nsTerminating := .ok false, getRBErr := none, setOwnerErr := none,
    createErr := none, updateErr := none, deleteRBInnerErr := none, deleteRoleErr := none }

theorem reconcileRoleBinding_idempotent_witness :
    (reconcileRoleBinding "rb" [] "ns1" [] happyEnv none).err = none ∧
    ((reconcileRoleBinding "rb" [] "ns1" [] happyEnv none).trace.any RBOp.isCreate) = true ∧
    (reconcileRoleBinding "rb" [] "ns1" [] happyEnv
      (reconcileRoleBinding "rb" [] "ns1" [] happyEnv none).store).err = none ∧
    ((reconcileRoleBinding "rb" [] "ns1" [] happyEnv
      (reconcileRoleBinding "rb" [] "ns1" [] happyEnv none).store).trace.any RBOp.isCreate)
      = false ∧
    ((reconcileRoleBinding "rb" [] "ns1" [] happyEnv
      (reconcileRoleBinding "rb" [] "ns1" [] happyEnv none).store).trace.any RBOp.isUpdate)
      = false :=
  reconcileRoleBinding_idempotent "rb" [] [] "ns1" happyEnv { name := "sa1", ns := "ns1" }
    rfl rfl rfl rfl

/-- C4: when the existing roleBinding's immutable RoleRef differs from the
desired one, the converge invocation never calls Update and never calls Create
(no recreate within the same call); it calls Delete on the existing object, and
when the deletion succeeds it reports deletion (no error, object gone). -/
theorem reconcileRoleBinding_immutable_drift_deletes (rn : String)
    (rl instAnn : List (String × String)) (instNs : String) (env : RBEnv)
    (sa : ServiceAccount) (ex : RoleBinding)
    (hsa : env.saResult = .ok sa) (hns : env.nsTerminating = .ok false)
    (hget : env.getRBErr = none)
    (hdrift : ex.roleRef ≠ (desiredRoleBinding rn rl instNs instAnn sa).roleRef) :
    ((reconcileRoleBinding rn rl instNs instAnn env (some ex)).trace.any RBOp.isUpdate
      = false) ∧
    ((reconcileRoleBinding rn rl instNs instAnn env (some ex)).trace.any RBOp.isCreate
      = false) ∧
    (RBOp.deleteRoleBindingOp rn instNs ∈
      (reconcileRoleBinding rn rl instNs instAnn env (some ex)).trace) ∧
    (env.deleteRBInnerErr = none →
      (reconcileRoleBinding rn rl instNs instAnn env (some ex)).err = none ∧
      (reconcileRoleBinding rn rl instNs instAnn env (some ex)).store = none) := by
  cases hde : env.deleteRBInnerErr with
  | none =>
    simp [reconcileRoleBinding, hsa, hns, hget, hde, GetRoleBinding, deleteRoleBinding,
      permDeleteRoleBinding, hdrift, RBOp.isCreate, RBOp.isUpdate]
  | some e0 =>
    cases h0 : e0.isNotFound <;>
      simp [reconcileRoleBinding, hsa, hns, hget, hde, h0, GetRoleBinding, deleteRoleBinding,
        permDeleteRoleBinding, hdrift, RBOp.isCreate, RBOp.isUpdate]

def driftedRB : RoleBinding :=
  { name := "rb", ns := "ns1", labels := [], annotations := [],
    roleRef := { apiGroup := "g", kind := "ClusterRole", name := "other" },
    subjects := [], ownerRefSet := false }

theorem reconcileRoleBinding_immutable_drift_witness :
    ((reconcileRoleBinding "rb" [] "ns1" [] happyEnv (some driftedRB)).trace.any RBOp.isUpdate
      = false) ∧
    ((reconcileRoleBinding "rb" [] "ns1" [] happyEnv (some driftedRB)).trace.any RBOp.isCreate
      = false) ∧
    (RBOp.deleteRoleBindingOp "rb" "ns1" ∈
      (reconcileRoleBinding "rb" [] "ns1" [] happyEnv (some driftedRB)).trace) ∧
    (happyEnv.deleteRBInnerErr = none →
      (reconcileRoleBinding "rb" [] "ns1" [] happyEnv (some driftedRB)).err = none ∧
      (reconcileRoleBinding "rb" [] "ns1" [] happyEnv (some driftedRB)).store = none) :=
  reconcileRoleBinding_immutable_drift_deletes "rb" [] [] "ns1" happyEnv
    { name := "sa1", ns := "ns1" } driftedRB rfl rfl rfl (by decide)

/- Environment for the parent-terminating scenario: the parent namespace is
marked for deletion; the role-deletion collaborator would fail if consulted. -/
def termEnv : RBEnv :=
  { saResult := .ok { name := "sa1", ns := "ns1" },
    nsTerminating := .ok true, getRBErr := none, setOwnerErr := none,
    createErr := none, updateErr := none, deleteRBInnerErr := none,
    deleteRoleErr := some { isNotFound := false, msg := "delete failed" } }

/-- C5 (code bug evidence): with the parent namespace terminating and the
managed roleBinding absent, the invocation short-circuits before any drift
comparison and reports success (nil error), but the deletion it attempts is
asr.deleteRole on the Role named after the roleBinding — it never attempts to
delete the roleBinding it manages, and the (here failing) deletion result is
swallowed by the shadowed err. -/
theorem reconcileRoleBinding_parentTerminating_deletes_role_not_roleBinding :
    (reconcileRoleBinding "rb" [] "ns1" [] termEnv none).err = none ∧
    RBOp.deleteRoleOp "rb" "ns1" ∈
      (reconcileRoleBinding "rb" [] "ns1" [] termEnv none).trace ∧
    ((reconcileRoleBinding "rb" [] "ns1" [] termEnv none).trace.any RBOp.isDeleteRB
      = false) ∧
    RBOp.getRoleBinding ∉ (reconcileRoleBinding "rb" [] "ns1" [] termEnv none).trace := by
  refine ⟨rfl, ?_, rfl, ?_⟩ <;> decide

/-- C8: in the create (absent) branch, a failing owner-reference attachment is
non-fatal: the create is still attempted, and the invocation's result is
exactly the create call's result — the attachment error is never returned. -/
theorem reconcileRoleBinding_ownerRef_failure_nonfatal (rn : String)
    (rl instAnn : List (String × String)) (instNs : String) (env : RBEnv)
    (sa : ServiceAccount) (e : StoreErr)
    (hsa : env.saResult = .ok sa) (hns : env.nsTerminating = .ok false)
    (hget : env.getRBErr = none) (hso : env.setOwnerErr = some e) :
    ((reconcileRoleBinding rn rl instNs instAnn env none).trace.any RBOp.isCreate = true) ∧
    (reconcileRoleBinding rn rl instNs instAnn env none).err = env.createErr := by
  cases hce : env.createErr with
  | none =>
    simp [reconcileRoleBinding, hsa, hns, hget, hso, hce, GetRoleBinding, notFoundErr,
      RBOp.isCreate]
  | some ce =>
    simp [reconcileRoleBinding, hsa, hns, hget, hso, hce, GetRoleBinding, notFoundErr,
      RBOp.isCreate]

def ownerFailEnv : RBEnv :=
  { saResult := .ok { name := "sa1", ns := "ns1" },
    nsTerminating := .ok false, getRBErr := none,
    setOwnerErr := some { isNotFound := false, msg := "owner attach failed" },
    createErr := none, updateErr := none, deleteRBInnerErr := none, deleteRoleErr := none }

theorem reconcileRoleBinding_ownerRef_failure_witness :
    ((reconcileRoleBinding "rb" [] "ns1" [] ownerFailEnv none).trace.any RBOp.isCreate
      = true) ∧
    (reconcileRoleBinding "rb" [] "ns1" [] ownerFailEnv none).err = ownerFailEnv.createErr :=
  reconcileRoleBinding_ownerRef_failure_nonfatal "rb" [] [] "ns1" ownerFailEnv
    { name := "sa1", ns := "ns1" } { isNotFound := false, msg := "owner attach failed" }
    rfl rfl rfl rfl

/- Store operations issued against the external client, recorded as a trace. -/
inductive ClientOp where
  | getOp
  | createOp
  | updateOp
  | deleteOp
deriving DecidableEq

/- Injected results of the external client's calls for one invocation. -/
structure ClientEnv where
  getErr : Option StoreErr
  updateErr : Option StoreErr
  deleteErr : Option StoreErr
deriving DecidableEq

/- GetService from pkg/networking/service.go lines 81-89: the client returns a
NotFound-kind error when the object is absent, the injected error when the
store fails, and the object otherwise. -/
def GetService (store : Option Service) (injected : Option StoreErr) :
    Except StoreErr Service :=
  match injected with
  | some e => .error e
  | none =>
    match store with
    | none => .error notFoundErr
    | some s => .ok s

/- UpdateService from pkg/networking/service.go lines 54-64: fetch first, and
only issue the Update when the fetch succeeds. -/
def UpdateService (service : Service) (store : Option Service) (env : ClientEnv) :
    Option StoreErr × Option Service × List ClientOp :=
  match GetService store env.getErr with
  | .error e => (some e, store, [.getOp])
  | .ok _ =>
    match env.updateErr with
    | some e => (some e, store, [.getOp, .updateOp])
    | none => (none, some service, [.getOp, .updateOp])

/- DeleteService from pkg/networking/service.go lines 66-79: a NotFound fetch is
success without issuing the Delete; a present object is deleted, any delete
error is returned. -/
def DeleteService (store : Option Service) (env : ClientEnv) :
    Option StoreErr × Option Service × List ClientOp :=
  match GetService store env.getErr with
  | .error e => if !e.isNotFound then (some e, store, [.getOp]) else (none, store, [.getOp])
  | .ok _ =>
    match env.deleteErr with
    | some e => (some e, store, [.getOp, .deleteOp])
    | none => (none, none, [.getOp, .deleteOp])

/- GetStatefulSet from pkg/workloads/statefulset.go lines 79-87. -/
def GetStatefulSet (store : Option StatefulSet) (injected : Option StoreErr) :
    Except StoreErr StatefulSet :=
  match injected with
  | some e => .error e
  | none =>
    match store with
    | none => .error notFoundErr
    | some s => .ok s

/- UpdateStatefulSet from pkg/workloads/statefulset.go lines 52-62. -/
def UpdateStatefulSet (sts : StatefulSet) (store : Option StatefulSet) (env : ClientEnv) :
    Option StoreErr × Option StatefulSet × List ClientOp :=
  match GetStatefulSet store env.getErr with
  | .error e => (some e, store, [.getOp])
  | .ok _ =>
    match env.updateErr with
    | some e => (some e, store, [.getOp, .updateOp])
    | none => (none, some sts, [.getOp, .updateOp])

/- deleteConfigMap from the redis reconciler (src/unnamed/part_000 lines
204-213), abstracted over the result of workloads.DeleteConfigMap (not under
src/): a NotFound error is recovered as success, any other error is wrapped and
returned. -/
def deleteConfigMap (name : String) (inner : Option StoreErr) : Option StoreErr :=
  match inner with
  | some e =>
    if e.isNotFound then none
    else some (wrapErr ("deleteConfigMap: failed to delete config map " ++ name) e)
  | none => none

/-- C6: for every delete operation on a named resource, a NotFound store error
is treated as success (no error returned), while any other store error is
returned to the caller as a failure. Stated for DeleteService (absent object,
injected NotFound, injected other get error, failing delete call), for
deleteRoleBinding, and for deleteConfigMap. -/
theorem delete_notFound_is_success (store : Option Service) (env : ClientEnv)
    (rbStore : Option RoleBinding) (e : StoreErr) (name : String) :
    (env.getErr = none → store = none →
      DeleteService store env = (none, none, [.getOp])) ∧
    (env.getErr = some e → e.isNotFound = true →
      (DeleteService store env).1 = none) ∧
    (env.getErr = some e → e.isNotFound = false →
      (DeleteService store env).1 = some e) ∧
    (env.getErr = none → store.isSome = true → env.deleteErr = some e →
      (DeleteService store env).1 = some e) ∧
    ((deleteRoleBinding rbStore none).1 = none) ∧
    (e.isNotFound = true → (deleteRoleBinding rbStore (some e)).1 = none) ∧
    (rbStore.isSome = true → e.isNotFound = false →
      (deleteRoleBinding rbStore (some e)).1 = some e) ∧
    (deleteConfigMap name none = none) ∧
    (e.isNotFound = true → deleteConfigMap name (some e) = none) ∧
    (e.isNotFound = false → deleteConfigMap name (some e) =
      some (wrapErr ("deleteConfigMap: failed to delete config map " ++ name) e)) := by
  refine ⟨?_, ?_, ?_, ?_, ?_, ?_, ?_, ?_, ?_, ?_⟩
  · intro hg hs
    simp [DeleteService, GetService, hg, hs, notFoundErr]
  · intro hg hnf
    simp [DeleteService, GetService, hg, hnf]
  · intro hg hnf
    simp [DeleteService, GetService, hg, hnf]
  · intro hg hs hd
    cases store with
    | none => simp at hs
    | some s0 => simp [DeleteService, GetService, hg, hd]
  · cases rbStore <;> simp [deleteRoleBinding, permDeleteRoleBinding, notFoundErr]
  · intro hnf
    cases rbStore <;> simp [deleteRoleBinding, permDeleteRoleBinding, notFoundErr, hnf]
  · intro hs hnf
    cases rbStore with
    | none => simp at hs
    | some rb => simp [deleteRoleBinding, permDeleteRoleBinding, hnf]
  · simp [deleteConfigMap]
  · intro hnf
    simp [deleteConfigMap, hnf]
  · intro hnf
    simp [deleteConfigMap, hnf]

theorem delete_notFound_is_success_witness :
    DeleteService none { getErr := none, updateErr := none, deleteErr := none }
      = (none, none, [.getOp]) ∧
    (deleteRoleBinding none (some { isNotFound := true, msg := "gone" })).1 = none ∧
    (deleteConfigMap "cm" (some { isNotFound := false, msg := "boom" }) =
      some (wrapErr "deleteConfigMap: failed to delete config map cm"
        { isNotFound := false, msg := "boom" })) :=
  ⟨(delete_notFound_is_success none { getErr := none, updateErr := none, deleteErr := none }
      none { isNotFound := true, msg := "gone" } "cm").1 rfl rfl,
   (delete_notFound_is_success none { getErr := none, updateErr := none, deleteErr := none }
      none { isNotFound := true, msg := "gone" } "cm").2.2.2.2.2.1 rfl,
   (delete_notFound_is_success none { getErr := none, updateErr := none, deleteErr := none }
      none { isNotFound := false, msg := "boom" } "cm").2.2.2.2.2.2.2.2.2 rfl⟩

/-- C9: UpdateService and UpdateStatefulSet fetch the object first; if the
fetch fails (including NotFound), the fetch error is returned, no Update call
is issued, and the store is untouched — updating an absent object fails with
the NotFound error and never creates it. -/
theorem update_requires_existing_object (svc : Service) (sts : StatefulSet)
    (store : Option Service) (stsStore : Option StatefulSet)
    (env env2 : ClientEnv) (e e2 : StoreErr) :
    (GetService store env.getErr = .error e →
      UpdateService svc store env = (some e, store, [.getOp])) ∧
    (GetStatefulSet stsStore env2.getErr = .error e2 →
      UpdateStatefulSet sts stsStore env2 = (some e2, stsStore, [.getOp])) ∧
    (env.getErr = none → store = none →
      UpdateService svc store env = (some notFoundErr, none, [.getOp])) ∧
    (env2.getErr = none → stsStore = none →
      UpdateStatefulSet sts stsStore env2 = (some notFoundErr, none, [.getOp])) := by
  refine ⟨?_, ?_, ?_, ?_⟩
  · intro hget
    simp [UpdateService, hget]
  · intro hget
    simp [UpdateStatefulSet, hget]
  · intro hg hs
    simp [UpdateService, GetService, hg, hs]
  · intro hg hs
    simp [UpdateStatefulSet, GetStatefulSet, hg, hs]

def emptyClientEnv : ClientEnv := { getErr := none, updateErr := none, deleteErr := none }

def someSvc : Service := { name := "svc1", ns := "ns1", labels := [], annotations := [] }

def someSts : StatefulSet := { name := "sts1", ns := "ns1", labels := [] }

theorem update_requires_existing_object_witness :
    UpdateService someSvc none emptyClientEnv = (some notFoundErr, none, [.getOp]) ∧
    UpdateStatefulSet someSts none emptyClientEnv = (some notFoundErr, none, [.getOp]) :=
  ⟨(update_requires_existing_object someSvc someSts none none emptyClientEnv emptyClientEnv
      notFoundErr notFoundErr).1 rfl,
   (update_requires_existing_object someSvc someSts none none emptyClientEnv emptyClientEnv
      notFoundErr notFoundErr).2.1 rfl⟩

/-- C7: name generation. Two builds with an empty explicit name and the same
parent (instance) name and component produce identical object names, whatever
the other request inputs are (for both newService and newStatefulSet, and
across the two builders); a non-empty explicit name is used verbatim. -/
theorem builder_name_generation (i ns1 ns2 c : String)
    (l1 l2 a1 a2 : List (String × String)) :
    (newService "" i ns1 c l1 a1).name = (newService "" i ns2 c l2 a2).name ∧
    (newStatefulSet "" i ns1 c l1).name = (newStatefulSet "" i ns2 c l2).name ∧
    (newService "" i ns1 c l1 a1).name = GenerateResourceName i c ∧
    (newStatefulSet "" i ns1 c l1).name = GenerateResourceName i c ∧
    (∀ n, n ≠ "" → (newService n i ns1 c l1 a1).name = n ∧
      (newStatefulSet n i ns1 c l1).name = n) := by
  refine ⟨rfl, rfl, rfl, rfl, ?_⟩
  intro n hn
  constructor
  · simp [newService, hn]
  · simp [newStatefulSet, hn]

theorem builder_name_generation_witness :
    (newService "" "cd1" "nsA" "redis" [] []).name =
      (newService "" "cd1" "nsB" "redis" [("k", "v")] [("a", "b")]).name ∧
    (newService "explicit" "cd1" "nsA" "redis" [] []).name = "explicit" :=
  ⟨(builder_name_generation "cd1" "nsA" "nsB" "redis" [] [("k", "v")] [] [("a", "b")]).1,
   ((builder_name_generation "cd1" "nsA" "nsB" "redis" [] [("k", "v")] [] [("a", "b")]).2.2.2.2
      "explicit" (by decide)).1⟩

/- IsClusterConfigNs from src/unnamed/part_000 lines 53-67, parameterised over
the already-split cluster-config namespace list (the env-var read and
argoutil.SplitList are external inputs to this function). -/
def IsClusterConfigNs (clusterConfigNamespaces : List String) (current : String) : Bool :=
  match clusterConfigNamespaces with
  | [] => false
  | first :: rest =>
    if first = "*" then true
    else (first :: rest).any (fun n => n = current)

/-- C10: IsClusterConfigNs returns true iff the configured namespace list is
non-empty and either its first element is the wildcard or the current
namespace occurs in the list; a wildcard in a non-first position does not by
itself match every namespace. -/
theorem isClusterConfigNs_spec :
    (∀ (l : List String) (current : String),
      IsClusterConfigNs l current = true ↔
        l ≠ [] ∧ (l.headD "" = "*" ∨ current ∈ l)) ∧
    IsClusterConfigNs ["team-a", "*"] "team-b" = false := by
  constructor
  · intro l current
    cases l with
    | nil => simp [IsClusterConfigNs]
    | cons first rest =>
      by_cases h : first = "*"
      · simp [IsClusterConfigNs, h]
      · simp only [IsClusterConfigNs, if_neg h]
        constructor
        · intro ha
          refine ⟨by simp, Or.inr ?_⟩
          rcases List.any_eq_true.mp ha with ⟨n, hn, hne⟩
          rcases List.mem_cons.mp hn with h1 | h1
          · subst h1
            simp only [decide_eq_true_eq] at hne
            subst hne
            exact List.mem_cons_self _ _
          · simp only [decide_eq_true_eq] at hne
            subst hne
            exact List.mem_cons_of_mem _ h1
        · rintro ⟨-, hor⟩
          rcases hor with hh | hmem
          · simp only [List.headD_cons] at hh
            exact absurd hh h
          · exact List.any_eq_true.mpr ⟨current, hmem, by simp⟩
  · decide

theorem isClusterConfigNs_witness :
    IsClusterConfigNs ["team-a", "*"] "team-b" = false :=
  isClusterConfigNs_spec.2
